import Mathlib

/-!
Shallow embedding of `src/legacy_dll_builder/dll_source/UniversalConverter32.cpp`,
the 32-bit DLL shim around an external `python cli.py` document converter.

Modelling conventions:
* The operating system is an oracle record `Env`: `fs` is the result of
  `FileExists` (an `std::ifstream` open probe) before any subprocess runs;
  `fsAfter cmd p` is the result of the same probe on path `p` after the shell
  command `cmd` has been executed (the subprocess may create files);
  `pipeOk cmd` models whether `_popen(cmd, "r")` succeeds, and
  `pipeOutput cmd` the text drained from the pipe; `dllPath` is what
  `GetModuleFileNameA` reports; `fileSize p` is `tellg()` at end of file when
  the `ifstream` open in `GetFileInfo` succeeds (`none` models `is_open()`
  returning false); `exnConvert` / `exnTest` model an exception being raised
  inside the `try` block of `ConvertDocument` / `TestConnection`.
* The global `g_lastError` buffer is threaded explicitly: each entry point
  takes the previous error string and returns the new one in its result
  record.  The 512-byte bound is not modelled; no claim depends on it.
* Nullable `const char*` parameters are `Option String`; a null `char*`
  output buffer is a `Bool` flag (`bufferPresent`).
* Status codes are the C macros: `UC_SUCCESS = 1`, `UC_FAILURE = 0`,
  `UC_ERROR = -1`, returned as `Int` (the C `LONG`).
-/

/-- Status code `UC_SUCCESS` (`#define UC_SUCCESS 1`). -/
def UC_SUCCESS : Int := 1

/-- Status code `UC_FAILURE` (`#define UC_FAILURE 0`). -/
def UC_FAILURE : Int := 0

/-- Status code `UC_ERROR` (`#define UC_ERROR -1`). -/
def UC_ERROR : Int := -1

/-- A C++ exception caught in a `try` block of the DLL: either a
`std::exception` carrying a `what()` message, or any other thrown value
(the `catch (...)` case). -/
inductive CxxExn where
  | std (msg : String)
  | other
deriving DecidableEq

/-- Oracle for the operating-system facing behaviour of the DLL. -/
structure Env where
  fs : String → Bool
  fsAfter : String → String → Bool
  pipeOk : String → Bool
  pipeOutput : String → String
  dllPath : String
  fileSize : String → Option Nat
  exnConvert : Option CxxExn
  exnTest : Bool

/-- Result of `ExecutePythonCLI`: the captured combined output stream and the
value of `g_lastError` afterwards. -/
structure ExecOut where
  output : String
  err : String
deriving DecidableEq

/-- `ExecutePythonCLI` (lines 28-45): run the command through `_popen`; on
pipe failure set `g_lastError` and return the empty string, otherwise return
the drained output and leave `g_lastError` alone. -/
def ExecutePythonCLI (e : Env) (command : String) (err0 : String) : ExecOut :=
  if e.pipeOk command then ⟨e.pipeOutput command, err0⟩
  else ⟨"", "Failed to execute Python CLI"⟩

/-- `FileExists` (lines 48-51): probe a path by opening an `std::ifstream`. -/
def FileExists (e : Env) (filename : String) : Bool :=
  e.fs filename

/-- Character test used by `find_last_of("\\/")` in `BuildCLICommand`. -/
def isSlash (c : Char) : Bool :=
  c == '\\' || c == '/'

/-- The `substr(0, lastSlash)` directory computation of `BuildCLICommand`
(lines 59-65): keep everything before the last `\` or `/`; if there is no
separator the string is returned whole. -/
def dirOf (s : String) : String :=
  match s.data.reverse.dropWhile (fun c => !(isSlash c)) with
  | [] => s
  | _ :: t => String.mk t.reverse

/-- The fixed part of the CLI command built by `BuildCLICommand`
(lines 68-70): change into the DLL directory, invoke `python cli.py` with the
quoted input path and the quoted `-o` output path. -/
def cmdStem (e : Env) (inputFile outputFile : String) : String :=
  "cd /d \"" ++ dirOf e.dllPath ++ "\" && python cli.py" ++
    " \"" ++ inputFile ++ "\"" ++ " -o \"" ++ outputFile ++ "\""

/-- The conditional `-t` clause of `BuildCLICommand` (lines 72-74): appended
exactly when `outputFormat` is a non-null pointer with `strlen > 0`. -/
def formatFlagText : Option String → String
  | some f => if 0 < f.length then " -t " ++ f else ""
  | none => ""

/-- `BuildCLICommand` (lines 54-79).  The `inputFormat` parameter is received
but never written into the command. -/
def BuildCLICommand (e : Env) (inputFile outputFile : String)
    (inputFormat outputFormat : Option String) : String :=
  cmdStem e inputFile outputFile ++ formatFlagText outputFormat ++ " --quiet 2>&1"

/-- Result of `ConvertDocument`-shaped entry points: the returned status, the
value of `g_lastError` afterwards, and the command handed to
`ExecutePythonCLI` when a subprocess was spawned (`none` when it never was). -/
structure ConvOut where
  ret : Int
  err : String
  executed : Option String
deriving DecidableEq

/-- `ConvertDocument` (lines 94-132): clear `g_lastError`; reject null paths;
reject a missing input file; otherwise build the CLI command, execute it, and
report `UC_SUCCESS` when the output file exists afterwards, else `UC_FAILURE`
with a generic message when no more specific error was recorded.  Exceptions
in the `try` block map to `UC_ERROR`. -/
def ConvertDocument (e : Env) (inputFile outputFile inputFormat outputFormat : Option String)
    (err0 : String) : ConvOut :=
  match inputFile, outputFile with
  | some inF, some outF =>
    if FileExists e inF = false then
      ⟨UC_ERROR, "Input file not found: " ++ inF, none⟩
    else
      match e.exnConvert with
      | some (CxxExn.std msg) => ⟨UC_ERROR, "Exception: " ++ msg, none⟩
      | some CxxExn.other => ⟨UC_ERROR, "Unknown error occurred", none⟩
      | none =>
        let command := BuildCLICommand e inF outF inputFormat outputFormat
        let ex := ExecutePythonCLI e command ""
        if e.fsAfter command outF then
          ⟨UC_SUCCESS, ex.err, some command⟩
        else if ex.err.length = 0 then
          ⟨UC_FAILURE, "Conversion failed - output file not created", some command⟩
        else
          ⟨UC_FAILURE, ex.err, some command⟩
  | _, _ => ⟨UC_ERROR, "Invalid input parameters", none⟩

/-- List-level test that `p` occurs at the start of `s` (the shape of a
successful `std::string::find` probe at one position). -/
def startsWithL : List Char → List Char → Bool
  | _, [] => true
  | [], _ :: _ => false
  | a :: s, b :: p => a == b && startsWithL s p

/-- List-level occurrence test: `std::string::find(pat) != npos`. -/
def hasSubL : List Char → List Char → Bool
  | [], p => p.isEmpty
  | a :: t, p => startsWithL (a :: t) p || hasSubL t p

/-- `std::string::find(pat) != std::string::npos` on strings. -/
def strHasSub (s pat : String) : Bool :=
  hasSubL s.data pat.data

/-- The interpreter probe command of `TestConnection` (line 141). -/
def probeCommand : String := "python --version 2>&1"

/-- Result of `TestConnection`: status and `g_lastError` afterwards. -/
structure TCOut where
  ret : Int
  err : String
deriving DecidableEq

/-- `TestConnection` (lines 135-160): clear `g_lastError`; run
`python --version 2>&1`; if the captured output contains `"Python"` and
`cli.py` exists, `UC_SUCCESS`; otherwise `UC_FAILURE` with an explanatory
message; any exception gives `UC_ERROR`. -/
def TestConnection (e : Env) (err0 : String) : TCOut :=
  if e.exnTest then ⟨UC_ERROR, "Connection test failed"⟩
  else
    let ex := ExecutePythonCLI e probeCommand ""
    if strHasSub ex.output "Python" then
      if e.fsAfter probeCommand "cli.py" then ⟨UC_SUCCESS, ex.err⟩
      else ⟨UC_FAILURE, "CLI script not found"⟩
    else ⟨UC_FAILURE, "Python not available"⟩

/-- `GetVersion` (lines 163-165). -/
def GetVersion : String := "3.1.0"

/-- `GetLastError` (lines 168-170): read the threaded error state. -/
def GetLastError (err : String) : String := err

/-- `GetSupportedInputFormats` (lines 173-175). -/
def GetSupportedInputFormats : String := "pdf,docx,txt,html,rtf,md,markdown"

/-- `GetSupportedOutputFormats` (lines 178-180). -/
def GetSupportedOutputFormats : String := "txt,md,html,json"

/-- `ConvertPDFToText` (lines 183-185). -/
def ConvertPDFToText (e : Env) (inputFile outputFile : Option String) (err0 : String) : ConvOut :=
  ConvertDocument e inputFile outputFile (some "pdf") (some "txt") err0

/-- `ConvertPDFToMarkdown` (lines 187-189). -/
def ConvertPDFToMarkdown (e : Env) (inputFile outputFile : Option String) (err0 : String) : ConvOut :=
  ConvertDocument e inputFile outputFile (some "pdf") (some "md") err0

/-- `ConvertDOCXToText` (lines 191-193). -/
def ConvertDOCXToText (e : Env) (inputFile outputFile : Option String) (err0 : String) : ConvOut :=
  ConvertDocument e inputFile outputFile (some "docx") (some "txt") err0

/-- `ConvertDOCXToMarkdown` (lines 195-197). -/
def ConvertDOCXToMarkdown (e : Env) (inputFile outputFile : Option String) (err0 : String) : ConvOut :=
  ConvertDocument e inputFile outputFile (some "docx") (some "md") err0

/-- `ConvertMarkdownToHTML` (lines 199-201). -/
def ConvertMarkdownToHTML (e : Env) (inputFile outputFile : Option String) (err0 : String) : ConvOut :=
  ConvertDocument e inputFile outputFile (some "md") (some "html") err0

/-- `ConvertHTMLToMarkdown` (lines 203-205). -/
def ConvertHTMLToMarkdown (e : Env) (inputFile outputFile : Option String) (err0 : String) : ConvOut :=
  ConvertDocument e inputFile outputFile (some "html") (some "md") err0

/-- `ConvertRTFToText` (lines 207-209). -/
def ConvertRTFToText (e : Env) (inputFile outputFile : Option String) (err0 : String) : ConvOut :=
  ConvertDocument e inputFile outputFile (some "rtf") (some "txt") err0

/-- `ConvertRTFToMarkdown` (lines 211-213). -/
def ConvertRTFToMarkdown (e : Env) (inputFile outputFile : Option String) (err0 : String) : ConvOut :=
  ConvertDocument e inputFile outputFile (some "rtf") (some "md") err0

/-- `ConvertBatch` (lines 216-221): a stub that records the fixed message and
returns `UC_ERROR` for every input, never spawning a subprocess. -/
def ConvertBatch (e : Env) (inputDir outputDir inputFormat outputFormat : Option String)
    (err0 : String) : ConvOut :=
  ⟨UC_ERROR, "Batch conversion not yet implemented", none⟩

/-- The text `sprintf_s(infoBuffer, bufferSize, "Size: %lld bytes", size)`
produces for a file of `n` bytes. -/
def sizeText (n : Nat) : String :=
  "Size: " ++ toString n ++ " bytes"

/-- Result of `GetFileInfo`: status, `g_lastError` afterwards, the new
content of the caller's buffer (`none` when the buffer was not written), and
a `fault` marker for the `sprintf_s` capacity-constraint violation (the CRT
invalid-parameter handler fires; by default the process terminates, and if
the handler returns the buffer is emptied and the code still falls through
to `return UC_SUCCESS`). -/
structure GFIOut where
  ret : Int
  err : String
  buffer : Option String
  fault : Bool
deriving DecidableEq

/-- `GetFileInfo` (lines 224-245): reject a null path, a null buffer or a
non-positive declared capacity; reject a missing file; otherwise open the
file, read its size and format `"Size: N bytes"` into the buffer.  Note that
`g_lastError` is NOT cleared on entry: on the success path it keeps its
previous value `err0`. -/
def GetFileInfo (e : Env) (filePath : Option String) (bufferPresent : Bool)
    (bufferSize : Int) (err0 : String) : GFIOut :=
  match filePath with
  | none => ⟨UC_ERROR, "Invalid parameters for GetFileInfo", none, false⟩
  | some p =>
    if bufferPresent = false ∨ bufferSize ≤ 0 then
      ⟨UC_ERROR, "Invalid parameters for GetFileInfo", none, false⟩
    else if FileExists e p = false then
      ⟨UC_ERROR, "File not found: " ++ p, none, false⟩
    else
      match e.fileSize p with
      | some n =>
        if ((sizeText n).length : Int) + 1 ≤ bufferSize then
          ⟨UC_SUCCESS, err0, some (sizeText n), false⟩
        else
          ⟨UC_SUCCESS, err0, some "", true⟩
      | none => ⟨UC_ERROR, "Could not open file for info", none, false⟩

/-- Replace the pipe-output oracle, leaving every other part of the
environment unchanged (used to state that `ConvertDocument` ignores the
captured diagnostic text). -/
def setPipeOutput (e : Env) (g : String → String) : Env :=
  ⟨e.fs, e.fsAfter, e.pipeOk, g, e.dllPath, e.fileSize, e.exnConvert, e.exnTest⟩

/-- A concrete environment: `in.pdf` and `f.txt` exist (`f.txt` has 5 bytes),
the subprocess always starts and leaves `out.txt` as the only file it
creates, and no exception is raised. -/
def env1 : Env :=
  ⟨fun p => p == "in.pdf" || p == "f.txt",
   fun _ p => p == "out.txt",
   fun _ => true,
   fun _ => "WARNING: fallback engine used",
   "C:\\conv\\UniversalConverter32.dll",
   fun p => if p == "f.txt" then some 5 else none,
   none,
   false⟩

/-- A concrete environment in which the interpreter probe answers
`Python 3.11.4` and `cli.py` exists. -/
def env2 : Env :=
  ⟨fun _ => false,
   fun _ p => p == "cli.py",
   fun _ => true,
   fun _ => "Python 3.11.4",
   "C:\\conv\\UniversalConverter32.dll",
   fun _ => none,
   none,
   false⟩

/-- Concatenating two strings concatenates their character data. -/
theorem data_append (s t : String) : (s ++ t).data = s.data ++ t.data := rfl

/-- A pattern matches at the start of any extension of itself. -/
theorem startsWithL_append (p b : List Char) : startsWithL (p ++ b) p = true := by
  induction p with
  | nil =>
    cases b <;> rfl
  | cons a t ih => simp [startsWithL, ih]

/-- A match at the start is an occurrence. -/
theorem hasSubL_of_starts (s p : List Char) (h : startsWithL s p = true) :
    hasSubL s p = true := by
  cases s with
  | nil =>
    cases p with
    | nil => rfl
    | cons b q => simp [startsWithL] at h
  | cons a t => simp [hasSubL, h]

/-- An occurrence survives prepending more characters. -/
theorem hasSubL_append_left (a s p : List Char) (h : hasSubL s p = true) :
    hasSubL (a ++ s) p = true := by
  induction a with
  | nil => simpa using h
  | cons c t ih => simp [hasSubL, ih]

/-- A string of the shape `x ++ pat ++ y` contains `pat`. -/
theorem strHasSub_middle (x pat y : String) :
    strHasSub (x ++ (pat ++ y)) pat = true := by
  have h1 : startsWithL (pat.data ++ y.data) pat.data = true := startsWithL_append _ _
  have h2 : hasSubL (pat.data ++ y.data) pat.data = true := hasSubL_of_starts _ _ h1
  have h3 : hasSubL (x.data ++ (pat.data ++ y.data)) pat.data = true :=
    hasSubL_append_left _ _ _ h2
  simpa [strHasSub, data_append] using h3

example : dirOf "C:\\conv\\UniversalConverter32.dll" = "C:\\conv" := by decide

example :
    BuildCLICommand env1 "in.pdf" "out.txt" (some "pdf") (some "txt") =
      "cd /d \"C:\\conv\" && python cli.py \"in.pdf\" -o \"out.txt\" -t txt --quiet 2>&1" := by
  decide

example :
    (ConvertDocument env1 (some "in.pdf") (some "out.txt") none (some "txt") "x").ret = 1 := by
  decide

example : (TestConnection env2 "x").ret = 1 := by decide

example : strHasSub "abc -t def" " -t " = true := by decide

/-- Claim C4: two calls to `BuildCLICommand` — and hence to `ConvertDocument`
— whose arguments differ only in the input-format hint build the identical
command string and produce the identical result: the input-format hint is
accepted as a parameter but never placed into the command. -/
theorem inputFormat_never_used (e : Env) (a b : String) (i o f1 f2 t : Option String)
    (err0 : String) :
    BuildCLICommand e a b f1 t = BuildCLICommand e a b f2 t ∧
    ConvertDocument e i o f1 t err0 = ConvertDocument e i o f2 t err0 := by
  refine ⟨rfl, ?_⟩
  cases i <;> cases o <;> rfl

/-- Claim C5: each of the eight format-pair convenience operations returns a
result identical to calling `ConvertDocument` directly with the same paths and
its hard-coded format-hint pair, with identical effect on the last-error
state (the whole result record, error string included, is equal). -/
theorem wrappers_delegate (e : Env) (i o : Option String) (err0 : String) :
    ConvertPDFToText e i o err0 = ConvertDocument e i o (some "pdf") (some "txt") err0 ∧
    ConvertPDFToMarkdown e i o err0 = ConvertDocument e i o (some "pdf") (some "md") err0 ∧
    ConvertDOCXToText e i o err0 = ConvertDocument e i o (some "docx") (some "txt") err0 ∧
    ConvertDOCXToMarkdown e i o err0 = ConvertDocument e i o (some "docx") (some "md") err0 ∧
    ConvertMarkdownToHTML e i o err0 = ConvertDocument e i o (some "md") (some "html") err0 ∧
    ConvertHTMLToMarkdown e i o err0 = ConvertDocument e i o (some "html") (some "md") err0 ∧
    ConvertRTFToText e i o err0 = ConvertDocument e i o (some "rtf") (some "txt") err0 ∧
    ConvertRTFToMarkdown e i o err0 = ConvertDocument e i o (some "rtf") (some "md") err0 :=
  ⟨rfl, rfl, rfl, rfl, rfl, rfl, rfl, rfl⟩

/-- Claim C9: for every combination of arguments, `ConvertBatch` returns
`UC_ERROR` with the fixed "not implemented" message in the last-error state
and never spawns a subprocess (no executed command). -/
theorem ConvertBatch_stub (e : Env) (a b f t : Option String) (err0 : String) :
    ConvertBatch e a b f t err0 =
      ⟨UC_ERROR, "Batch conversion not yet implemented", none⟩ :=
  rfl

/-- Claim C10: when the paths are non-null but the input file does not exist,
`ConvertDocument` returns `UC_ERROR` before any command is executed: no
subprocess is spawned and the last-error state is exactly the message naming
the missing input path. -/
theorem ConvertDocument_missing_input (e : Env) (i o : String) (f t : Option String)
    (err0 : String) (h : e.fs i = false) :
    ConvertDocument e (some i) (some o) f t err0 =
      ⟨UC_ERROR, "Input file not found: " ++ i, none⟩ := by
  simp [ConvertDocument, FileExists, h]

/-- Witness for `ConvertDocument_missing_input` at a concrete environment and
input. -/
theorem ConvertDocument_missing_input_witness :
    ConvertDocument env1 (some "missing.pdf") (some "out.txt") none (some "txt") "old" =
      ⟨UC_ERROR, "Input file not found: " ++ "missing.pdf", none⟩ :=
  ConvertDocument_missing_input env1 "missing.pdf" "out.txt" none (some "txt") "old"
    (by decide)

/-- Claim C1 (amended): when the input path or the output path is a null
pointer, `ConvertDocument` returns `UC_ERROR` with the message
`Invalid input parameters` and no subprocess is spawned; an empty-string
input path is rejected (with `UC_ERROR` and no subprocess) only through the
file-existence probe, which fails on the empty path; an empty-string output
path is not validated at all. -/
theorem ConvertDocument_null_paths_rejected (e : Env) (i o f t : Option String)
    (err0 : String) :
    ((i = none ∨ o = none) →
      ConvertDocument e i o f t err0 = ⟨UC_ERROR, "Invalid input parameters", none⟩) ∧
    (e.fs "" = false → ∀ o2 : String,
      ConvertDocument e (some "") (some o2) f t err0 =
        ⟨UC_ERROR, "Input file not found: ", none⟩) := by
  constructor
  · rintro (h | h) <;> subst h
    · cases o <;> rfl
    · cases i <;> rfl
  · intro h o2
    simpa using ConvertDocument_missing_input e "" o2 f t err0 h

/-- Witness for `ConvertDocument_null_paths_rejected`: both parts applied at
concrete inputs in `env1`. -/
theorem ConvertDocument_null_paths_rejected_witness :
    ConvertDocument env1 none (some "out.txt") none none "" =
        ⟨UC_ERROR, "Invalid input parameters", none⟩ ∧
    ConvertDocument env1 (some "") (some "out.txt") none none "" =
        ⟨UC_ERROR, "Input file not found: ", none⟩ :=
  ⟨(ConvertDocument_null_paths_rejected env1 none (some "out.txt") none none "").1
      (Or.inl rfl),
   (ConvertDocument_null_paths_rejected env1 (some "x") (some "out.txt") none none "").2
      (by decide) "out.txt"⟩

/-- Counterexample to claim C1 as stated: with an existing input file and the
empty string (a non-null pointer) as output path, `ConvertDocument` does
build and execute the subprocess command and returns `UC_FAILURE`, not
`UC_ERROR`. -/
theorem ConvertDocument_empty_output_cex :
    (ConvertDocument env1 (some "in.pdf") (some "") none none "").ret = UC_FAILURE ∧
    (ConvertDocument env1 (some "in.pdf") (some "") none none "").executed ≠ none ∧
    UC_FAILURE ≠ UC_ERROR := by
  refine ⟨by decide, ?_, by decide⟩
  decide

/-- A non-empty string has positive length. -/
theorem length_pos_of_ne_empty (s : String) (h : s ≠ "") : 0 < s.length := by
  cases s with
  | mk l =>
    cases l with
    | nil => exact absurd rfl h
    | cons a t => simp [String.length]

/-- Claim C2 (amended): the last-error state is overwritten (cleared) at the
start of `ConvertDocument` and `TestConnection`, whose results are therefore
independent of the previously recorded error; `GetFileInfo`, however, never
clears it, so whenever `GetFileInfo` returns `UC_SUCCESS` the stale error
message from a previous call remains readable unchanged. -/
theorem lastError_reset_discipline (e : Env) (i o f t p : Option String) (bp : Bool)
    (cap : Int) (e1 e2 err0 : String) :
    ConvertDocument e i o f t e1 = ConvertDocument e i o f t e2 ∧
    TestConnection e e1 = TestConnection e e2 ∧
    ((GetFileInfo e p bp cap err0).ret = UC_SUCCESS →
      (GetFileInfo e p bp cap err0).err = err0) := by
  refine ⟨rfl, rfl, ?_⟩
  have hd : (GetFileInfo e p bp cap err0).err = err0 ∨
      (GetFileInfo e p bp cap err0).ret = UC_ERROR := by
    cases p with
    | none => right; rfl
    | some q =>
      simp only [GetFileInfo]
      split
      · right; rfl
      · split
        · right; rfl
        · split
          · split
            · left; rfl
            · left; rfl
          · right; rfl
  intro h
  rcases hd with hd | hd
  · exact hd
  · exact absurd (hd.symm.trans h) (by decide)

/-- Witness for `lastError_reset_discipline`: a successful `GetFileInfo` call
leaves the stale message `"stale"` in place. -/
theorem lastError_reset_discipline_witness :
    (GetFileInfo env1 (some "f.txt") true 64 "stale").err = "stale" :=
  (lastError_reset_discipline env1 none none none none (some "f.txt") true 64
      "a" "b" "stale").2.2 (by decide)

/-- Counterexample to claim C2 as stated: after `ConvertBatch` records its
error, a `GetFileInfo` call that returns `UC_SUCCESS` still exposes the stale
message from the previous call, because `GetFileInfo` does not overwrite the
shared last-error string at its start. -/
theorem GetFileInfo_stale_error_cex :
    (GetFileInfo env1 (some "f.txt") true 64
        (ConvertBatch env1 (some "a") (some "b") none none "").err).ret = UC_SUCCESS ∧
    (GetFileInfo env1 (some "f.txt") true 64
        (ConvertBatch env1 (some "a") (some "b") none none "").err).err =
      "Batch conversion not yet implemented" := by
  exact ⟨by decide, by decide⟩

/-- Claim C3: with non-null paths, an existing input file and no exception,
`ConvertDocument` returns `UC_SUCCESS` exactly when the output file exists
after the subprocess ran — and its whole result ignores the captured
diagnostic text — while a missing output file gives `UC_FAILURE` with a
non-empty last error (the generic message when no more specific error was
recorded, i.e. whenever the pipe opened). -/
theorem ConvertDocument_outcome_spec (e : Env) (i o : String) (f t : Option String)
    (err0 : String) (g : String → String)
    (hx : e.exnConvert = none) (hin : e.fs i = true) :
    (e.fsAfter (BuildCLICommand e i o f t) o = true →
        (ConvertDocument e (some i) (some o) f t err0).ret = UC_SUCCESS) ∧
    (e.fsAfter (BuildCLICommand e i o f t) o = false →
        (ConvertDocument e (some i) (some o) f t err0).ret = UC_FAILURE ∧
        (ConvertDocument e (some i) (some o) f t err0).err ≠ "" ∧
        (e.pipeOk (BuildCLICommand e i o f t) = true →
          (ConvertDocument e (some i) (some o) f t err0).err =
            "Conversion failed - output file not created")) ∧
    ConvertDocument (setPipeOutput e g) (some i) (some o) f t err0 =
      ConvertDocument e (some i) (some o) f t err0 := by
  have hlen : ¬ ("Failed to execute Python CLI".length = 0) := by decide
  refine ⟨?_, ?_, ?_⟩
  · intro h
    simp [ConvertDocument, FileExists, hin, hx, h]
  · intro h
    by_cases hp : e.pipeOk (BuildCLICommand e i o f t) <;>
      simp [ConvertDocument, FileExists, ExecutePythonCLI, hin, hx, h, hp, hlen]
  · have hb : BuildCLICommand (setPipeOutput e g) i o f t = BuildCLICommand e i o f t := rfl
    have h1 : (setPipeOutput e g).fsAfter = e.fsAfter := rfl
    have h2 : (setPipeOutput e g).pipeOk = e.pipeOk := rfl
    have h3 : (setPipeOutput e g).exnConvert = e.exnConvert := rfl
    have h4 : (setPipeOutput e g).fs = e.fs := rfl
    by_cases hp : e.pipeOk (BuildCLICommand e i o f t) <;>
      simp [ConvertDocument, FileExists, ExecutePythonCLI, hb, h1, h2, h3, h4,
        hin, hx, hp, hlen]

/-- Witness for `ConvertDocument_outcome_spec`: a run in `env1` where the
output file appears yields `UC_SUCCESS`. -/
theorem ConvertDocument_outcome_spec_witness :
    (ConvertDocument env1 (some "in.pdf") (some "out.txt") (some "pdf") (some "txt")
        "z").ret = UC_SUCCESS :=
  (ConvertDocument_outcome_spec env1 "in.pdf" "out.txt" (some "pdf") (some "txt") "z"
      (fun _ => "") rfl (by decide)).1 (by decide)

/-- Claim C6: `GetFileInfo` returns `UC_ERROR` whenever the path is null, the
buffer is null, the declared capacity is non-positive, or the file does not
exist; for an existing file of `n` bytes whose size could be read, when the
declared capacity fits the formatted text plus its terminator it writes
exactly `Size: n bytes` into the buffer, returns `UC_SUCCESS`, and leaves the
error state untouched. -/
theorem GetFileInfo_spec (e : Env) (p : Option String) (path : String) (bp : Bool)
    (cap : Int) (err0 : String) (n : Nat) :
    ((p = none ∨ bp = false ∨ cap ≤ 0) → (GetFileInfo e p bp cap err0).ret = UC_ERROR) ∧
    (e.fs path = false → (GetFileInfo e (some path) true cap err0).ret = UC_ERROR) ∧
    (e.fs path = true → e.fileSize path = some n →
      ((sizeText n).length : Int) + 1 ≤ cap →
      GetFileInfo e (some path) true cap err0 =
        ⟨UC_SUCCESS, err0, some (sizeText n), false⟩) := by
  refine ⟨?_, ?_, ?_⟩
  · rintro (h | h | h)
    · subst h; rfl
    · subst h
      cases p with
      | none => rfl
      | some q => simp [GetFileInfo]
    · cases p with
      | none => rfl
      | some q => simp [GetFileInfo, h]
  · intro h
    by_cases hc : cap ≤ 0 <;> simp [GetFileInfo, FileExists, h, hc]
  · intro h1 h2 h3
    have hc : ¬ cap ≤ 0 := by
      have := Int.ofNat_nonneg (sizeText n).length
      omega
    simp [GetFileInfo, FileExists, h1, h2, h3, hc]

/-- Witness for `GetFileInfo_spec`: the 5-byte file `f.txt` in `env1` with a
64-byte buffer gives `UC_SUCCESS` and the exact text `Size: 5 bytes`. -/
theorem GetFileInfo_spec_witness :
    GetFileInfo env1 (some "f.txt") true 64 "keep" =
      ⟨UC_SUCCESS, "keep", some (sizeText 5), false⟩ :=
  (GetFileInfo_spec env1 (some "f.txt") "f.txt" true 64 "keep" 5).2.2
    (by decide) (by decide) (by decide)

/-- Claim C7 (amended): the target-format flag is appended to the command
exactly when the output-format hint is non-null and non-empty — a null or
empty hint yields the flagless command, and a non-empty hint `s` yields the
flagless stem with the clause built from `-t` and `s` inserted before the
quiet suffix (so the command then contains the flag text); the full command
string can, however, also contain the flag text when a caller-supplied path
happens to contain it. -/
theorem formatFlag_structure (e : Env) (i o : String) (f t : Option String) (s : String) :
    ((t = none ∨ t = some "") →
      BuildCLICommand e i o f t = cmdStem e i o ++ " --quiet 2>&1") ∧
    (s ≠ "" →
      BuildCLICommand e i o f (some s) =
        cmdStem e i o ++ (" -t " ++ s) ++ " --quiet 2>&1" ∧
      strHasSub (BuildCLICommand e i o f (some s)) " -t " = true) := by
  constructor
  · rintro (h | h) <;> subst h <;>
      · apply String.ext
        simp [BuildCLICommand, formatFlagText, data_append]
  · intro hs
    have hlen : 0 < s.length := length_pos_of_ne_empty s hs
    constructor
    · simp [BuildCLICommand, formatFlagText, hlen]
    · have h4 : BuildCLICommand e i o f (some s) =
          cmdStem e i o ++ (" -t " ++ (s ++ " --quiet 2>&1")) := by
        apply String.ext
        simp [BuildCLICommand, formatFlagText, hlen, data_append]
      rw [h4]
      exact strHasSub_middle _ _ _

/-- Witness for `formatFlag_structure`: a null hint yields the flagless
command, and the hint `md` yields a command containing the flag. -/
theorem formatFlag_structure_witness :
    BuildCLICommand env1 "a.pdf" "b.txt" none none =
        cmdStem env1 "a.pdf" "b.txt" ++ " --quiet 2>&1" ∧
    strHasSub (BuildCLICommand env1 "a.pdf" "b.txt" none (some "md")) " -t " = true :=
  ⟨(formatFlag_structure env1 "a.pdf" "b.txt" none none "md").1 (Or.inl rfl),
   ((formatFlag_structure env1 "a.pdf" "b.txt" none none "md").2 (by decide)).2⟩

/-- Counterexample to claim C7 as stated: with a null output-format hint (so
the append condition of lines 72-74 is false) the constructed command string
nevertheless contains the flag text `-t`, because the input path
`report -t 1.pdf` carries it. -/
theorem formatFlag_substring_cex :
    strHasSub (BuildCLICommand env1 "report -t 1.pdf" "out.txt" none none) " -t " = true ∧
    formatFlagText none = "" :=
  ⟨by decide, rfl⟩

/-- Claim C8: when no exception occurs, `TestConnection` returns `UC_SUCCESS`
exactly when the interpreter probe's captured output contains `Python` and
`cli.py` exists; when either check fails it returns `UC_FAILURE` with a
non-empty explanatory message; an exception yields `UC_ERROR` with its fixed
message. -/
theorem TestConnection_spec (e : Env) (err0 : String) :
    (e.exnTest = false →
      (((TestConnection e err0).ret = UC_SUCCESS) ↔
        (strHasSub (ExecutePythonCLI e probeCommand "").output "Python" = true ∧
         e.fsAfter probeCommand "cli.py" = true)) ∧
      ((TestConnection e err0).ret ≠ UC_SUCCESS →
        (TestConnection e err0).ret = UC_FAILURE ∧ (TestConnection e err0).err ≠ "")) ∧
    (e.exnTest = true →
      (TestConnection e err0).ret = UC_ERROR ∧
      (TestConnection e err0).err = "Connection test failed") := by
  constructor
  · intro he
    by_cases h1 : strHasSub (ExecutePythonCLI e probeCommand "").output "Python" = true <;>
      by_cases h2 : e.fsAfter probeCommand "cli.py" = true <;>
        simp [TestConnection, he, h1, h2] <;> decide
  · intro he
    simp [TestConnection, he]

/-- Witness for `TestConnection_spec`: in `env2`, where the probe answers
`Python 3.11.4` and `cli.py` exists, the connection test succeeds. -/
theorem TestConnection_spec_witness :
    (TestConnection env2 "w").ret = UC_SUCCESS :=
  ((TestConnection_spec env2 "w").1 rfl).1.mpr ⟨by decide, by decide⟩
